import Mathlib

/-!
Verification of the SMS dispatch service (`src/main.py`).

The file shallowly embeds the pure content of the service: JSON-like
configuration values, the template resolver (`build_api_list`), the
per-endpoint dispatcher (`call_api_sync`, with the network modelled as an
explicit outcome parameter and network I/O counted), the status-code
classifier, the aggregation performed by the `/api/v1` handler (`api_v1`),
and the configuration loader (`load_config`) as a state transition.

Modelling conventions:
* Python dicts become association lists (first match wins; Python dicts
  have unique keys, so first match agrees with dict lookup).
* Header and variable values are modelled as strings, following the
  declared data model (VariableMap is string-to-string and resolved
  headers are string-to-string); the `isinstance(value, str)` guard in
  `build_api_list` is then always satisfied.
* Machine-level networking is an oracle: a `NetOutcome` says what the one
  HTTP call for an endpoint would produce (a status code and body text, a
  timeout, a connection failure, or another raised exception).
* Python string slicing `s[:150]`, `in`, and `str.replace` are modelled
  by executable char-list functions defined below.
-/

namespace SMS

/-- JSON-like values, modelling the Python values that `json.load` /
`json.loads` produce (floats are not modelled; no claim involves them). -/
inductive Json where
  | null : Json
  | bool (b : Bool) : Json
  | num (n : Int) : Json
  | str (s : String) : Json
  | arr (xs : List Json) : Json
  | obj (fields : List (String × Json)) : Json

/-- Association-list lookup, modelling Python `d[k]` / `d.get(k)` on a
dict with unique keys. -/
def dictGet {α : Type} (k : String) : List (String × α) → Option α
  | [] => none
  | (k', v) :: rest => if k' = k then some v else dictGet k rest

/-- Python `s[:n]` on a string: the first `n` characters. -/
def pyTake (n : Nat) (s : String) : String := ⟨s.data.take n⟩

/-- Python `pat in s` on char lists: some suffix of the list has the
pattern as a prefix. -/
def containsSub (pat : List Char) : List Char → Bool
  | [] => pat.isPrefixOf []
  | c :: rest => pat.isPrefixOf (c :: rest) || containsSub pat rest

/-- Python `pat in s` on strings. -/
def pyContains (pat s : String) : Bool := containsSub pat.data s.data

/-- Python `s.startswith(pat)`. -/
def pyStartsWith (pat s : String) : Bool := pat.data.isPrefixOf s.data

/-- Python `s.endswith(pat)`. -/
def pyEndsWith (pat s : String) : Bool :=
  pat.data.reverse.isPrefixOf s.data.reverse

/-- Python `s.lower()` (the configuration strings are ASCII). -/
def pyLower (s : String) : String := ⟨s.data.map Char.toLower⟩

/-- The ASCII whitespace characters `str.strip` removes. -/
def pySpace (c : Char) : Bool :=
  c = ' ' || c = '\t' || c = '\n' || c = '\r' || c = '\x0b' || c = '\x0c'

/-- Python `s.strip()`: remove leading and trailing whitespace. -/
def pyStrip (s : String) : String :=
  ⟨((s.data.dropWhile pySpace).reverse.dropWhile pySpace).reverse⟩

/-- The character list of the placeholder `"{number}"`. -/
def numberPat : List Char := ['{', 'n', 'u', 'm', 'b', 'e', 'r', '}']

/-- Python `s.replace("{number}", rep)`: replace each non-overlapping
occurrence, scanning left to right. -/
def substNumAux (rep : List Char) : List Char → List Char
  | [] => []
  | c :: rest =>
    if numberPat.isPrefixOf (c :: rest) then
      rep ++ substNumAux rep (rest.drop 7)
    else
      c :: substNumAux rep rest
termination_by l => l.length
decreasing_by
  · simp only [List.length_drop, List.length_cons]; omega
  · simp only [List.length_cons]; omega

/-- Python `"{number}" in s` on strings. -/
def pyContainsNumber (s : String) : Bool := containsSub numberPat s.data

/-- Python `s.replace("{number}", rep)` on strings. -/
def pySubstNumber (rep s : String) : String := ⟨substNumAux rep.data s.data⟩

/-- The closed set of outcome categories the service assigns. -/
inductive Status where
  | sent : Status
  | auth_error : Status
  | not_found : Status
  | rate_limited : Status
  | server_error : Status
  | error : Status
  | timeout : Status
  | connection_error : Status
  | skipped : Status
deriving DecidableEq

/-- Status-code classification, from `src/main.py` lines 232-246
(the `if`/`elif` chain over `status_code` in `call_api_sync`). -/
def classifyStatusCode (status_code : Nat) : Status :=
  if status_code = 200 ∨ status_code = 201 ∨ status_code = 202 then .sent
  else if status_code = 400 ∨ status_code = 401 ∨ status_code = 403 then .auth_error
  else if status_code = 404 then .not_found
  else if status_code = 429 then .rate_limited
  else if status_code = 500 then .server_error
  else if 400 ≤ status_code then .error
  else .sent

/-- The result record for one endpoint, from the `APIResult` pydantic
model (`src/main.py` lines 31-36): it declares exactly the fields
`name`, `status`, `status_code`, `response`, `error`. -/
structure APIResult where
  name : String
  status : Status
  status_code : Option Nat := none
  response : Option String := none
  error : Option String := none
deriving DecidableEq

/-- The keyword arguments the source passes at a call of `APIResult(...)`,
including the undeclared `reason` keyword used at the skipped-endpoint
return site (`src/main.py` line 204). -/
structure ResultArgs where
  name : String
  status : Status
  status_code : Option Nat := none
  response : Option String := none
  error : Option String := none
  reason : Option String := none
deriving DecidableEq

/-- Construction of an `APIResult` from keyword arguments: pydantic
`BaseModel` ignores keyword arguments that are not declared fields
(default `extra` behaviour), so the `reason` argument is dropped. -/
def mkAPIResult (a : ResultArgs) : APIResult :=
  { name := a.name, status := a.status, status_code := a.status_code,
    response := a.response, error := a.error }

/-- Characters the JSON grammar treats as whitespace. -/
def jsonWs (c : Char) : Bool := c = ' ' || c = '\t' || c = '\n' || c = '\r'

/-- Drop leading JSON whitespace. -/
def skipWs : List Char → List Char
  | [] => []
  | c :: rest => if jsonWs c then skipWs rest else c :: rest

/-- Parse the remainder of a JSON string literal, after the opening
quote.  Only the escapes needed by the configuration format are
modelled. -/
def parseStrBody : List Char → Option (String × List Char)
  | [] => none
  | '"' :: rest => some ("", rest)
  | '\\' :: '"' :: rest =>
      (parseStrBody rest).map (fun p => (⟨'"' :: p.1.data⟩, p.2))
  | '\\' :: '\\' :: rest =>
      (parseStrBody rest).map (fun p => (⟨'\\' :: p.1.data⟩, p.2))
  | '\\' :: _ => none
  | c :: rest =>
      (parseStrBody rest).map (fun p => (⟨c :: p.1.data⟩, p.2))

/-- Take a maximal run of decimal digits. -/
def takeDigits : List Char → List Char × List Char
  | [] => ([], [])
  | c :: rest =>
    if c.isDigit then
      let p := takeDigits rest
      (c :: p.1, p.2)
    else ([], c :: rest)

/-- Numeric value of a digit run. -/
def digitsToNat (ds : List Char) : Nat :=
  ds.foldl (fun a c => a * 10 + (c.toNat - 48)) 0

mutual

/-- Parse one JSON value (fuelled). -/
def parseVal : Nat → List Char → Option (Json × List Char)
  | 0, _ => none
  | fuel + 1, l =>
    match skipWs l with
    | '{' :: rest =>
      (match skipWs rest with
       | '}' :: r => some (Json.obj [], r)
       | r => (parseMembers fuel r).map (fun p => (Json.obj p.1, p.2)))
    | '[' :: rest =>
      (match skipWs rest with
       | ']' :: r => some (Json.arr [], r)
       | r => (parseItems fuel r).map (fun p => (Json.arr p.1, p.2)))
    | '"' :: rest => (parseStrBody rest).map (fun p => (Json.str p.1, p.2))
    | 't' :: 'r' :: 'u' :: 'e' :: r => some (Json.bool true, r)
    | 'f' :: 'a' :: 'l' :: 's' :: 'e' :: r => some (Json.bool false, r)
    | 'n' :: 'u' :: 'l' :: 'l' :: r => some (Json.null, r)
    | '-' :: rest =>
      (match takeDigits rest with
       | ([], _) => none
       | (ds, r) => some (Json.num (-(digitsToNat ds : Int)), r))
    | l' =>
      (match takeDigits l' with
       | ([], _) => none
       | (ds, r) => some (Json.num (digitsToNat ds), r))

/-- Parse the members of a JSON object, up to and including the closing
brace (fuelled). -/
def parseMembers : Nat → List Char → Option (List (String × Json) × List Char)
  | 0, _ => none
  | fuel + 1, l =>
    match skipWs l with
    | '"' :: rest =>
      (match parseStrBody rest with
       | none => none
       | some (key, r1) =>
         match skipWs r1 with
         | ':' :: r2 =>
           (match parseVal fuel r2 with
            | none => none
            | some (v, r3) =>
              match skipWs r3 with
              | ',' :: r4 =>
                (parseMembers fuel r4).map (fun p => ((key, v) :: p.1, p.2))
              | '}' :: r4 => some ([(key, v)], r4)
              | _ => none)
         | _ => none)
    | _ => none

/-- Parse the items of a JSON array, up to and including the closing
bracket (fuelled). -/
def parseItems : Nat → List Char → Option (List Json × List Char)
  | 0, _ => none
  | fuel + 1, l =>
    match parseVal fuel l with
    | none => none
    | some (v, r) =>
      match skipWs r with
      | ',' :: r2 => (parseItems fuel r2).map (fun p => (v :: p.1, p.2))
      | ']' :: r2 => some ([v], r2)
      | _ => none

end

/-- Modelled from the spec: Python's `json.loads` (a standard-library
dependency, not part of `src/`).  Surrounding whitespace is skipped as
`json.loads` does; objects, arrays, strings (with basic escapes),
integers, booleans and null are parsed; a document is accepted only if
the whole input is consumed.  Floats and exotic escapes are not
modelled — no claim exercises them. -/
def jsonLoads (s : String) : Option Json :=
  match parseVal (s.length + 1) s.data with
  | some (v, rest) => if skipWs rest = [] then some v else none
  | none => none

/-- One endpoint's raw configuration entry (`api_data` in
`build_api_list`): the JSON object describing one endpoint, with the
fields the source reads.  Absent keys are `none`; `url` defaults to `""`,
`method` to `"post"`, `headers` to `{}` via `.get` in the source. -/
structure ApiData where
  name : Option String := none
  url : Option String := none
  method : Option String := none
  headers : List (String × String) := []
  body : Option Json := none

/-- One resolved endpoint entry (`api_entry` in `build_api_list`), the
dict handed to `call_api_sync`. -/
structure ApiEntry where
  name : String
  url : String
  method : String
  headers : List (String × String)
  body : Option Json

/-- Header resolution for one declared header value, from `src/main.py`
lines 161-165: a value that exactly equals a key of the variable map is
replaced by that variable's value, any other value passes through. -/
def substHeaderValue (variableMap : List (String × String)) (value : String) : String :=
  match dictGet value variableMap with
  | some v => v
  | none => value

/-- URL resolution, from `src/main.py` lines 167-171: if the url contains
`"{number}"`, replace every occurrence with the mobile number. -/
def resolveUrl (mobile url : String) : String :=
  if pyContainsNumber url then pySubstNumber mobile url else url

/-- The looks-like-JSON test of `src/main.py` line 179: the string starts
with `{` and ends with `}`, or starts with `[` and ends with `]` — note
the source applies it to the string as is, without stripping. -/
def bodyLooksJson (s : String) : Bool :=
  (pyStartsWith "\x7b" s && pyEndsWith "\x7d" s)
    || (pyStartsWith "[" s && pyEndsWith "]" s)

/-- Body resolution, from `src/main.py` lines 174-184: a string body gets
`"{number}"` substituted, then, if it starts with `{` and ends with `}`
or starts with `[` and ends with `]`, `json.loads` is attempted, the
parse error being swallowed; a non-string body passes through. -/
def processBody (mobile : String) (body : Json) : Json :=
  match body with
  | Json.str s =>
    let s' := pySubstNumber mobile s
    if bodyLooksJson s' then
      match jsonLoads s' with
      | some v => v
      | none => Json.str s'
    else Json.str s'
  | b => b

/-- The loop body of `build_api_list` (`src/main.py` lines 151-186) for
one `(api_name, api_data)` pair of `apis_config`. -/
def buildApiEntry (variableMap : List (String × String)) (mobile : String)
    (apiName : String) (apiData : ApiData) : ApiEntry :=
  { name := apiData.name.getD apiName
    url := resolveUrl mobile (apiData.url.getD "")
    method := pyLower (apiData.method.getD "post")
    headers := apiData.headers.map (fun kv => (kv.1, substHeaderValue variableMap kv.2))
    body := apiData.body.map (processBody mobile) }

/-- `build_api_list` (`src/main.py` lines 147-188): one entry per
configured endpoint, in configuration order. -/
def build_api_list (variableMap : List (String × String))
    (apis_config : List (String × ApiData)) (mobile : String) : List ApiEntry :=
  apis_config.map (fun p => buildApiEntry variableMap mobile p.1 p.2)

/-- What the one HTTP call for an endpoint produces, had it been made:
the network is external, so it enters the model as an explicit outcome
(`src/main.py` lines 209-230 issue the call; lines 255-266 catch the
timeout and connection failures; line 267 catches any other exception). -/
inductive NetOutcome where
  | response (status_code : Nat) (body : String) : NetOutcome
  | timeoutErr : NetOutcome
  | connectionErr : NetOutcome
  | otherExn (msg : String) : NetOutcome

/-- The request shape `call_api_sync` issues for a non-skipped endpoint,
from `src/main.py` lines 210-230. -/
inductive PayloadChoice where
  | getNoBody : PayloadChoice
  | formEncoded (body : Option Json) : PayloadChoice
  | jsonEncoded (body : Json) : PayloadChoice
  | rawVerbatim (body : Option Json) : PayloadChoice

/-- A string-containment test, modelling Python `pat in s`. -/
def strContains (pat s : String) : Bool := pyContains pat s

/-- Content negotiation of `call_api_sync`, from `src/main.py` lines
210-230: GET sends headers only; otherwise the value under the exact
header key `"content-type"` (defaulting to `""`) is lower-cased, and if
it contains `"application/x-www-form-urlencoded"` the body is sent as
form data; else a dict/list body is sent as JSON; else the body is sent
verbatim as raw data. -/
def choosePayload (method : String) (headers : List (String × String))
    (body : Option Json) : PayloadChoice :=
  if method = "get" then .getNoBody
  else
    let content_type := pyLower ((dictGet "content-type" headers).getD "")
    if strContains "application/x-www-form-urlencoded" content_type then
      .formEncoded body
    else
      match body with
      | some (Json.obj fs) => .jsonEncoded (Json.obj fs)
      | some (Json.arr xs) => .jsonEncoded (Json.arr xs)
      | _ => .rawVerbatim body

/-- The HTTP call `call_api_sync` would issue for an endpoint: `none`
when the empty-url guard at `src/main.py` lines 200-205 fires, otherwise
the negotiated request shape. -/
def httpRequestIssued (api : ApiEntry) : Option PayloadChoice :=
  if api.url = "" then none
  else some (choosePayload api.method api.headers api.body)

/-- The keyword arguments `call_api_sync` (`src/main.py` lines 190-272)
passes to `APIResult` at whichever return site fires, paired with the
number of network calls performed (0 or 1). -/
def call_api_sync_args (net : NetOutcome) (api : ApiEntry) : ResultArgs × Nat :=
  if api.url = "" then
    ({ name := api.name, status := .skipped, reason := some "No URL provided" }, 0)
  else
    match net with
    | .response code text =>
      ({ name := api.name, status := classifyStatusCode code,
         status_code := some code,
         response := if text = "" then none else some (pyTake 150 text) }, 1)
    | .timeoutErr =>
      ({ name := api.name, status := .timeout,
         error := some "Request timeout (15s)" }, 1)
    | .connectionErr =>
      ({ name := api.name, status := .connection_error,
         error := some "Connection failed" }, 1)
    | .otherExn msg =>
      ({ name := api.name, status := .error,
         error := some (pyTake 150 msg) }, 1)

/-- `call_api_sync`: the `APIResult` actually returned (pydantic drops
the undeclared `reason` keyword), with the network-call count. -/
def call_api_sync (net : NetOutcome) (api : ApiEntry) : APIResult × Nat :=
  ((call_api_sync_args net api).1 |> mkAPIResult, (call_api_sync_args net api).2)

/-- What `asyncio.gather(..., return_exceptions=True)` yields for one
endpoint's task: its returned `APIResult`, or the exception object when
one escaped `call_api_sync` (`src/main.py` line 301). -/
inductive TaskOutcome where
  | value (r : APIResult) : TaskOutcome
  | exn (msg : String) : TaskOutcome

/-- Per-endpoint behaviour of one dispatch: either the call runs with a
given network outcome, or a failure escapes `call_api_sync`'s own
handlers and surfaces at the `gather` boundary. -/
inductive TaskBehavior where
  | net (n : NetOutcome) : TaskBehavior
  | escaped (msg : String) : TaskBehavior

/-- Run one endpoint's task under a given behaviour. -/
def runTask (b : TaskBehavior) (api : ApiEntry) : TaskOutcome :=
  match b with
  | .net n => .value (call_api_sync n api).1
  | .escaped m => .exn m

/-- Result post-processing of `api_v1`, from `src/main.py` lines
304-313: an exception yielded by `gather` becomes an `error` result
named `"unknown"` with the exception text truncated to 150 characters. -/
def processResult : TaskOutcome → APIResult
  | .value r => r
  | .exn msg => { name := "unknown", status := .error, error := some (pyTake 150 msg) }

/-- The statuses counted as `errors` by `api_v1`
(`src/main.py` line 317). -/
def errorStatusList : List Status :=
  [.error, .auth_error, .not_found, .server_error, .connection_error, .timeout]

/-- Count of `sent` results (`src/main.py` line 316). -/
def sent_count (rs : List APIResult) : Nat :=
  rs.countP (fun r => r.status == Status.sent)

/-- Count of error-like results (`src/main.py` line 317). -/
def error_count (rs : List APIResult) : Nat :=
  rs.countP (fun r => errorStatusList.contains r.status)

/-- Count of `rate_limited` results (`src/main.py` line 318). -/
def rate_limited_count (rs : List APIResult) : Nat :=
  rs.countP (fun r => r.status == Status.rate_limited)

/-- Count of `skipped` results (`src/main.py` line 319). -/
def skipped_count (rs : List APIResult) : Nat :=
  rs.countP (fun r => r.status == Status.skipped)

/-- The aggregated report the handler returns, from the `APIResponse`
pydantic model (`src/main.py` lines 38-45). -/
structure APIResponse where
  phone : String
  total_apis : Nat
  sent : Nat
  errors : Nat
  rate_limited : Nat
  skipped : Nat
  results : List APIResult

/-- The dispatch-and-aggregate core of `api_v1` (`src/main.py` lines
296-329), for an already chosen phone number: resolve the endpoint list,
run every endpoint's task, convert gather-level exceptions, count, and
build the report. -/
def dispatchReport (behavior : ApiEntry → TaskBehavior) (phone : String)
    (apis : List ApiEntry) : APIResponse :=
  let processed_results := apis.map (fun a => processResult (runTask (behavior a) a))
  { phone := phone
    total_apis := apis.length
    sent := sent_count processed_results
    errors := error_count processed_results
    rate_limited := rate_limited_count processed_results
    skipped := skipped_count processed_results
    results := processed_results }

/-- Python `phone or mobile` on two optional query strings: the first
operand unless it is falsy (`None` or `""`), else the second. -/
def pyOrStr (a b : Option String) : Option String :=
  match a with
  | some s => if s = "" then b else some s
  | none => b

/-- What the `/api/v1` handler returns at the HTTP level. -/
inductive ApiV1Response where
  | badRequest (detail : String) : ApiV1Response
  | ok (report : APIResponse) : ApiV1Response

/-- The `/api/v1` handler `api_v1` (`src/main.py` lines 278-329):
choose `phone or mobile`, reject a falsy value with HTTP 400 before any
resolution or dispatch, otherwise resolve and dispatch. -/
def api_v1 (behavior : ApiEntry → TaskBehavior)
    (apis_config : List (String × ApiData)) (variableMap : List (String × String))
    (phone mobile : Option String) : ApiV1Response :=
  match pyOrStr phone mobile with
  | none => .badRequest "Missing phone number. Use ?phone=NUMBER or ?mobile=NUMBER"
  | some m =>
    if m = "" then
      .badRequest "Missing phone number. Use ?phone=NUMBER or ?mobile=NUMBER"
    else
      .ok (dispatchReport behavior m (build_api_list variableMap apis_config m))

/-- The global configuration state (`apis_config` and `variables` (the latter renamed `variableMap`, `variables` being a reserved word in Lean),
`src/main.py` lines 56-57). -/
structure AppState where
  apis_config : List (String × ApiData)
  variableMap : List (String × String)

/-- A successfully parsed configuration document, with the `apis` and
`variableMap` keys already read off via `config.get(..., {})`. -/
structure ConfigDoc where
  apis : List (String × ApiData)
  variableMap : List (String × String)

/-- How one attempt to open and parse `apis.json` went: the three
`except` arms of `load_config` distinguish a missing file, malformed
JSON, and any other exception. -/
inductive LoadOutcome where
  | ok (config : ConfigDoc) : LoadOutcome
  | fileNotFound : LoadOutcome
  | jsonDecodeError : LoadOutcome
  | otherError : LoadOutcome

/-- `load_config` (`src/main.py` lines 122-139) as a transition on the
global state: success installs the parsed document; every failure arm
assigns `apis_config, variableMap = {}, {}`. -/
def load_config (outcome : LoadOutcome) (_prev : AppState) : AppState :=
  match outcome with
  | .ok config => { apis_config := config.apis, variableMap := config.variableMap }
  | .fileNotFound => { apis_config := [], variableMap := [] }
  | .jsonDecodeError => { apis_config := [], variableMap := [] }
  | .otherError => { apis_config := [], variableMap := [] }

/-- Stated from the claim's words (C4): like `processBody`, except that
the boundary test is made on the *trimmed* substituted string, as the
claim describes it. -/
def processBodyClaim (mobile : String) (body : Json) : Json :=
  match body with
  | Json.str s =>
    let s' := pySubstNumber mobile s
    if bodyLooksJson (pyStrip s') then
      match jsonLoads s' with
      | some v => v
      | none => Json.str s'
    else Json.str s'
  | b => b

/-- Stated from the claim's words (C7): like `choosePayload`, except that
the content-type header is looked up by key *case-insensitively*, as the
claim describes it. -/
def choosePayloadClaim (method : String) (headers : List (String × String))
    (body : Option Json) : PayloadChoice :=
  if method = "get" then .getNoBody
  else
    let content_type :=
      pyLower (((headers.find? (fun kv => pyLower kv.1 == "content-type")).map
        Prod.snd).getD "")
    if strContains "application/x-www-form-urlencoded" content_type then
      .formEncoded body
    else
      match body with
      | some (Json.obj fs) => .jsonEncoded (Json.obj fs)
      | some (Json.arr xs) => .jsonEncoded (Json.arr xs)
      | _ => .rawVerbatim body

/-- Auxiliary: every status falls in exactly one of the four counted
buckets. -/
lemma bucket_sum (r : APIResult) :
    (if errorStatusList.contains r.status then 1 else 0)
      + (if r.status == Status.sent then 1 else 0)
      + (if r.status == Status.rate_limited then 1 else 0)
      + (if r.status == Status.skipped then 1 else 0) = (1 : Nat) := by
  cases h : r.status <;> decide

/-- Auxiliary: the four report counters partition any result list. -/
lemma counts_partition (rs : List APIResult) :
    error_count rs + sent_count rs + rate_limited_count rs + skipped_count rs
      = rs.length := by
  induction rs with
  | nil => rfl
  | cons r rs ih =>
    simp only [error_count, sent_count, rate_limited_count, skipped_count,
      List.countP_cons, List.length_cons] at ih ⊢
    have hb := bucket_sum r
    omega

/-- C1: status-code classification is a pure function of the status code
alone: 200, 201 and 202 map to `sent`; 400, 401 and 403 map to
`auth_error`; 404 maps to `not_found`; 429 maps to `rate_limited`; 500
maps to `server_error`; any other code at least 400 maps to `error`; and
every remaining code, in particular every remaining 2xx and every 3xx,
maps to `sent`.  Totality of `classifyStatusCode` gives exactly one
category per response. -/
theorem claim_status_classification (c : Nat) :
    ((c = 200 ∨ c = 201 ∨ c = 202) → classifyStatusCode c = .sent) ∧
    ((c = 400 ∨ c = 401 ∨ c = 403) → classifyStatusCode c = .auth_error) ∧
    (c = 404 → classifyStatusCode c = .not_found) ∧
    (c = 429 → classifyStatusCode c = .rate_limited) ∧
    (c = 500 → classifyStatusCode c = .server_error) ∧
    (400 ≤ c → c ∉ ([400, 401, 403, 404, 429, 500] : List Nat) →
      classifyStatusCode c = .error) ∧
    (c < 400 → classifyStatusCode c = .sent) := by
  refine ⟨fun h => ?_, fun h => ?_, fun h => ?_, fun h => ?_, fun h => ?_,
    fun h h' => ?_, fun h => ?_⟩
  all_goals try simp only [List.mem_cons, List.not_mem_nil, or_false] at h'
  all_goals unfold classifyStatusCode
  all_goals split_ifs <;> first | rfl | (exfalso; omega)

/-- Witness for C1 at concrete status codes, one per classification arm. -/
theorem claim_status_classification_check :
    classifyStatusCode 301 = .sent ∧ classifyStatusCode 418 = .error ∧
    classifyStatusCode 401 = .auth_error ∧ classifyStatusCode 404 = .not_found ∧
    classifyStatusCode 429 = .rate_limited ∧ classifyStatusCode 500 = .server_error ∧
    classifyStatusCode 200 = .sent :=
  ⟨(claim_status_classification 301).2.2.2.2.2.2 (by omega),
   (claim_status_classification 418).2.2.2.2.2.1 (by omega) (by decide),
   (claim_status_classification 401).2.1 (Or.inr (Or.inl rfl)),
   (claim_status_classification 404).2.2.1 rfl,
   (claim_status_classification 429).2.2.2.1 rfl,
   (claim_status_classification 500).2.2.2.2.1 rfl,
   (claim_status_classification 200).1 (Or.inl rfl)⟩

/-- C2: in every dispatch report, over every input, the reported counts
partition the results: `errors + sent + rate_limited + skipped` equals
`total_apis`, which is the length of the result list. -/
theorem claim_report_counts_partition (behavior : ApiEntry → TaskBehavior)
    (phone : String) (apis : List ApiEntry) :
    (dispatchReport behavior phone apis).errors
        + (dispatchReport behavior phone apis).sent
        + (dispatchReport behavior phone apis).rate_limited
        + (dispatchReport behavior phone apis).skipped
      = (dispatchReport behavior phone apis).total_apis ∧
    (dispatchReport behavior phone apis).total_apis
      = (dispatchReport behavior phone apis).results.length := by
  constructor
  · simp only [dispatchReport]
    rw [counts_partition]
    simp
  · simp [dispatchReport]

/-- Auxiliary: truncation to 150 characters never exceeds 150
characters. -/
lemma pyTake_length_le (n : Nat) (s : String) : (pyTake n s).length ≤ n := by
  simp only [pyTake, String.length, List.length_take]
  omega

/-- C3: for every sequence of resolved requests, dispatch returns exactly
one result per request, in input order (result `i` comes from request
`i`, not from completion order); an unexpected failure inside one
endpoint's `call_api_sync` is caught there and becomes an `error` result
with the message truncated to 150 characters, and a failure that escapes
to the `gather` boundary likewise becomes an `error` result with a
truncated message — no failure aborts the batch or loses other results. -/
theorem claim_dispatch_one_result_per_request (behavior : ApiEntry → TaskBehavior)
    (phone : String) (apis : List ApiEntry) :
    (dispatchReport behavior phone apis).results.length = apis.length ∧
    (∀ i : Nat, (dispatchReport behavior phone apis).results[i]?
        = (apis[i]?).map (fun a => processResult (runTask (behavior a) a))) ∧
    (∀ api msg, api.url ≠ "" →
      (call_api_sync (.otherExn msg) api).1
        = { name := api.name, status := .error, error := some (pyTake 150 msg) }) ∧
    (∀ msg, processResult (.exn msg)
        = { name := "unknown", status := .error, error := some (pyTake 150 msg) }) ∧
    (∀ msg, (pyTake 150 msg).length ≤ 150) := by
  refine ⟨?_, ?_, ?_, ?_, ?_⟩
  · simp [dispatchReport]
  · intro i
    simp [dispatchReport, List.getElem?_map]
  · intro api msg hurl
    simp [call_api_sync, call_api_sync_args, mkAPIResult, hurl]
  · intro msg
    rfl
  · intro msg
    exact pyTake_length_le 150 msg

/-- Witness for C3: a concrete dispatch of two endpoints, one of which
raises, still yields two ordered results, and the raising endpoint's
failure text is truncated. -/
theorem claim_dispatch_one_result_per_request_check :
    (dispatchReport
        (fun a => if a.name = "b" then .escaped "kaboom" else .net (.response 200 "ok"))
        "017"
        [{ name := "a", url := "http://x", method := "post", headers := [], body := none },
         { name := "b", url := "http://y", method := "post", headers := [], body := none }]).results.length
      = 2 ∧
    (call_api_sync (.otherExn "boom")
        { name := "a", url := "http://x", method := "post", headers := [], body := none }).1
      = { name := "a", status := .error, error := some (pyTake 150 "boom") } := by
  constructor
  · rw [(claim_dispatch_one_result_per_request
      (fun a => if a.name = "b" then .escaped "kaboom" else .net (.response 200 "ok"))
      "017"
      [{ name := "a", url := "http://x", method := "post", headers := [], body := none },
       { name := "b", url := "http://y", method := "post", headers := [], body := none }]).1]
    rfl
  · exact (claim_dispatch_one_result_per_request (fun _ => .net (.otherExn "boom"))
      "017" []).2.2.1
      { name := "a", url := "http://x", method := "post", headers := [], body := none }
      "boom" (by simp)

/-- Auxiliary: replacing `"{number}"` in a list that does not contain it
is the identity. -/
lemma substNumAux_of_not_contains (rep : List Char) (l : List Char)
    (h : containsSub numberPat l = false) : substNumAux rep l = l := by
  induction l with
  | nil => simp [substNumAux]
  | cons c rest ih =>
    simp only [containsSub, Bool.or_eq_false_iff] at h
    rw [substNumAux, if_neg]
    · exact congrArg (List.cons c) (ih h.2)
    · simp [h.1]

/-- Auxiliary: an occurrence of the placeholder after a brace-free span
is replaced exactly once, verbatim, and scanning continues after it. -/
lemma substNumAux_decompose (rep post : List Char) (pre : List Char)
    (h : ∀ c ∈ pre, c ≠ '{') :
    substNumAux rep (pre ++ numberPat ++ post)
      = pre ++ rep ++ substNumAux rep post := by
  induction pre with
  | nil =>
    simp only [List.nil_append, numberPat, List.cons_append]
    rw [substNumAux, if_pos (by simp [numberPat, List.isPrefixOf])]
    simp [List.drop]
  | cons c pre ih =>
    have hc : c ≠ '{' := h c (List.mem_cons_self c pre)
    have hpre : ∀ x ∈ pre, x ≠ '{' := fun x hx => h x (List.mem_cons_of_mem c hx)
    simp only [List.cons_append]
    rw [substNumAux, if_neg]
    · rw [ih hpre]
    · simp [numberPat, List.isPrefixOf, beq_eq_false_iff_ne, Ne.symm hc]

/-- C9: the resolved URL is the template url with every literal
occurrence of `{number}` replaced by the supplied phone number: the
resolution agrees with unconditional replace-all on every url (the `in`
guard of the source is redundant), a url without the placeholder passes
through unchanged (no other substitution is performed), and each
occurrence is replaced exactly once, verbatim, scanning left to right. -/
theorem claim_url_number_substitution (mobile url : String) :
    resolveUrl mobile url = pySubstNumber mobile url ∧
    (pyContainsNumber url = false → resolveUrl mobile url = url) ∧
    (∀ pre post : String, (∀ c ∈ pre.data, c ≠ '{') →
      pySubstNumber mobile (pre ++ "{number}" ++ post)
        = pre ++ mobile ++ pySubstNumber mobile post) := by
  have hmain : resolveUrl mobile url = pySubstNumber mobile url := by
    unfold resolveUrl
    split_ifs with hc
    · rfl
    · rw [Bool.not_eq_true] at hc
      exact (String.ext (substNumAux_of_not_contains mobile.data url.data hc)).symm
  refine ⟨hmain, ?_, ?_⟩
  · intro h
    rw [hmain]
    exact String.ext (substNumAux_of_not_contains mobile.data url.data h)
  · intro pre post h
    exact String.ext (substNumAux_decompose mobile.data post.data pre.data h)

/-- Witness for C9: a url with the placeholder resolves with it
substituted, a decomposition around one occurrence inserts the number
exactly once, and a placeholder-free url is unchanged. -/
theorem claim_url_number_substitution_check :
    resolveUrl "017" "https://api.example/send?to={number}&x=1"
        = "https://api.example/send?to=017&x=1" ∧
    pySubstNumber "017" ("https://a/" ++ "{number}" ++ "/b")
        = "https://a/" ++ "017" ++ pySubstNumber "017" "/b" ∧
    resolveUrl "017" "https://no-placeholder" = "https://no-placeholder" := by
  refine ⟨?_, ?_, ?_⟩
  · rw [(claim_url_number_substitution "017"
      "https://api.example/send?to={number}&x=1").1]
    simp [pySubstNumber, substNumAux, numberPat, List.isPrefixOf]
  · exact (claim_url_number_substitution "017" "x").2.2 "https://a/" "/b" (by decide)
  · exact (claim_url_number_substitution "017" "https://no-placeholder").2.1 (by decide)

/-- C5: header variable substitution is exact full-value match only: a
declared value that equals a key of the variable map is replaced by that
variable's value, any other value (including one merely containing a
variable name) passes through unchanged; headers are resolved entrywise
by this rule; and variable substitution touches only the headers — the
resolved url, body, name and method do not depend on the variable map at
all. -/
theorem claim_header_exact_match (vars : List (String × String)) :
    (∀ value v, dictGet value vars = some v → substHeaderValue vars value = v) ∧
    (∀ value, dictGet value vars = none → substHeaderValue vars value = value) ∧
    (∀ mobile apiName apiData,
      (buildApiEntry vars mobile apiName apiData).headers
        = apiData.headers.map (fun kv => (kv.1, substHeaderValue vars kv.2))) ∧
    (∀ vars' mobile apiName apiData,
      (buildApiEntry vars mobile apiName apiData).url
          = (buildApiEntry vars' mobile apiName apiData).url ∧
      (buildApiEntry vars mobile apiName apiData).body
          = (buildApiEntry vars' mobile apiName apiData).body ∧
      (buildApiEntry vars mobile apiName apiData).name
          = (buildApiEntry vars' mobile apiName apiData).name ∧
      (buildApiEntry vars mobile apiName apiData).method
          = (buildApiEntry vars' mobile apiName apiData).method) := by
  refine ⟨?_, ?_, ?_, ?_⟩
  · intro value v h
    simp [substHeaderValue, h]
  · intro value h
    simp [substHeaderValue, h]
  · intro mobile apiName apiData
    rfl
  · intro vars' mobile apiName apiData
    exact ⟨rfl, rfl, rfl, rfl⟩

/-- Witness for C5: an exactly matching header value is substituted; a
value that only contains the variable name is passed through. -/
theorem claim_header_exact_match_check :
    substHeaderValue [("API_KEY", "secret-1")] "API_KEY" = "secret-1" ∧
    substHeaderValue [("API_KEY", "secret-1")] "Bearer API_KEY" = "Bearer API_KEY" :=
  ⟨(claim_header_exact_match [("API_KEY", "secret-1")]).1 "API_KEY" "secret-1"
      (by decide),
   (claim_header_exact_match [("API_KEY", "secret-1")]).2.1 "Bearer API_KEY"
      (by decide)⟩

/-- C4 (amended): for a literal string body, resolution substitutes
every `{number}` occurrence; then, if the substituted string itself —
with no trimming — starts with `{` and ends with `}` or starts with `[`
and ends with `]`, parsing is attempted: the body becomes the parsed
structured value on success and stays the substituted literal string on
parse failure, the parse error being swallowed; a body that is already
structured passes through unchanged, so `{number}` inside nested string
fields of a structured body is not substituted. -/
theorem claim_body_resolution (mobile : String) :
    (∀ s, bodyLooksJson (pySubstNumber mobile s) = false →
      processBody mobile (Json.str s) = Json.str (pySubstNumber mobile s)) ∧
    (∀ s v, bodyLooksJson (pySubstNumber mobile s) = true →
      jsonLoads (pySubstNumber mobile s) = some v →
      processBody mobile (Json.str s) = v) ∧
    (∀ s, bodyLooksJson (pySubstNumber mobile s) = true →
      jsonLoads (pySubstNumber mobile s) = none →
      processBody mobile (Json.str s) = Json.str (pySubstNumber mobile s)) ∧
    (∀ b, (∀ s, b ≠ Json.str s) → processBody mobile b = b) := by
  refine ⟨?_, ?_, ?_, ?_⟩
  · intro s h
    simp [processBody, h]
  · intro s v h hj
    simp [processBody, h, hj]
  · intro s h hj
    simp [processBody, h, hj]
  · intro b hb
    cases b <;> first | rfl | exact absurd rfl (hb _)

/-- Witness for C4 (amended): a JSON-shaped literal body with the
placeholder resolves to the parsed structured value with the number
substituted; a brace-delimited but malformed body stays the literal
substituted string; a structured body passes through with `{number}`
left untouched in its nested string field. -/
theorem claim_body_resolution_check :
    processBody "01812345678" (Json.str "\x7b\"to\":\"{number}\"\x7d")
        = Json.obj [("to", Json.str "01812345678")] ∧
    processBody "018" (Json.str "\x7bnot json\x7d") = Json.str "\x7bnot json\x7d" ∧
    processBody "018" (Json.obj [("to", Json.str "{number}")])
        = Json.obj [("to", Json.str "{number}")] := by
  have h1 : pySubstNumber "01812345678" "\x7b\"to\":\"{number}\"\x7d"
      = "\x7b\"to\":\"01812345678\"\x7d" := by
    simp [pySubstNumber, substNumAux, numberPat, List.isPrefixOf]
  have h2 : pySubstNumber "018" "\x7bnot json\x7d" = "\x7bnot json\x7d" := by
    simp [pySubstNumber, substNumAux, numberPat, List.isPrefixOf]
  refine ⟨?_, ?_, ?_⟩
  · exact (claim_body_resolution "01812345678").2.1 _
      (Json.obj [("to", Json.str "01812345678")])
      (by rw [h1]; rfl) (by rw [h1]; rfl)
  · have := (claim_body_resolution "018").2.2.1 "\x7bnot json\x7d"
      (by rw [h2]; rfl) (by rw [h2]; rfl)
    rw [h2] at this
    exact this
  · exact (claim_body_resolution "018").2.2.2 _ (fun s h => Json.noConfusion h)

/-- Counterexample to C4 as stated: the claim tests the trimmed string's
boundaries, but the source tests the untrimmed string; on the body
literal `" {}"` (leading space) the code leaves the literal string while
the claim's reading parses it to the empty object. -/
theorem claim_body_resolution_cex :
    processBody "017" (Json.str " \x7b\x7d") = Json.str " \x7b\x7d" ∧
    processBodyClaim "017" (Json.str " \x7b\x7d") = Json.obj [] ∧
    Json.str " \x7b\x7d" ≠ Json.obj [] := by
  have hsub : pySubstNumber "017" " \x7b\x7d" = " \x7b\x7d" := by
    simp [pySubstNumber, substNumAux, numberPat, List.isPrefixOf]
  refine ⟨?_, ?_, ?_⟩
  · simp only [processBody, hsub]
    rfl
  · simp only [processBodyClaim, hsub]
    rfl
  · exact fun h => Json.noConfusion h

/-- C6 (amended): every configuration load failure — missing source,
malformed document, or any other loading exception — resets the snapshot
to the empty one, regardless of what was loaded before; the previously
loaded endpoints and variable map are not preserved. -/
theorem claim_reload_failure_clears (outcome : LoadOutcome) (prev : AppState)
    (h : outcome = .fileNotFound ∨ outcome = .jsonDecodeError ∨ outcome = .otherError) :
    load_config outcome prev = { apis_config := [], variableMap := [] } := by
  rcases h with h | h | h <;> rw [h] <;> rfl

/-- Witness for C6 (amended): a missing-file reload over a one-endpoint
snapshot yields the empty snapshot. -/
theorem claim_reload_failure_clears_check :
    load_config .fileNotFound
        { apis_config := [("acme", { url := some "https://acme/send" })],
          variableMap := [("K", "v")] }
      = { apis_config := [], variableMap := [] } :=
  claim_reload_failure_clears .fileNotFound
    { apis_config := [("acme", { url := some "https://acme/send" })],
      variableMap := [("K", "v")] } (Or.inl rfl)

/-- Counterexample to C6 as stated: a reload failure after a valid
one-endpoint configuration was loaded does not leave the endpoint count
unchanged — the count drops from 1 to 0, because every `except` arm of
`load_config` assigns the empty configuration. -/
theorem claim_reload_failure_clears_cex :
    (load_config .fileNotFound
        { apis_config := [("acme", { url := some "https://acme/send" })],
          variableMap := [] }).apis_config.length
      ≠ ({ apis_config := [("acme", { url := some "https://acme/send" })],
           variableMap := [] } : AppState).apis_config.length := by
  decide

/-- C7 (amended): for a non-GET dispatch the body encoding is chosen in
this order — if the header stored under the exact, case-sensitive key
`"content-type"` has a value that, lower-cased, contains
`"application/x-www-form-urlencoded"`, the body is sent form-encoded;
else a structured (object/array) body is serialized as JSON; else the
body, string or absent, is sent verbatim as the raw payload; GET sends
headers only and never a body. -/
theorem claim_content_negotiation (method : String)
    (headers : List (String × String)) (body : Option Json) :
    (method = "get" → choosePayload method headers body = .getNoBody) ∧
    (method ≠ "get" →
      strContains "application/x-www-form-urlencoded"
          (pyLower ((dictGet "content-type" headers).getD "")) = true →
      choosePayload method headers body = .formEncoded body) ∧
    (method ≠ "get" →
      strContains "application/x-www-form-urlencoded"
          (pyLower ((dictGet "content-type" headers).getD "")) = false →
      (∀ fs, body = some (Json.obj fs) →
        choosePayload method headers body = .jsonEncoded (Json.obj fs)) ∧
      (∀ xs, body = some (Json.arr xs) →
        choosePayload method headers body = .jsonEncoded (Json.arr xs)) ∧
      ((∀ fs, body ≠ some (Json.obj fs)) → (∀ xs, body ≠ some (Json.arr xs)) →
        choosePayload method headers body = .rawVerbatim body)) := by
  refine ⟨?_, ?_, ?_⟩
  · intro h
    simp [choosePayload, h]
  · intro h hct
    simp [choosePayload, h, hct]
  · intro h hct
    refine ⟨?_, ?_, ?_⟩
    · intro fs hb
      subst hb
      simp [choosePayload, h, hct]
    · intro xs hb
      subst hb
      simp [choosePayload, h, hct]
    · intro h1 h2
      cases body with
      | none => simp [choosePayload, h, hct]
      | some j =>
        cases j <;>
          first
          | exact absurd rfl (h1 _)
          | exact absurd rfl (h2 _)
          | simp [choosePayload, h, hct]

/-- Witness for C7 (amended): each negotiation arm at a concrete input. -/
theorem claim_content_negotiation_check :
    choosePayload "get" [] none = .getNoBody ∧
    choosePayload "post"
        [("content-type", "application/x-www-form-urlencoded; charset=utf-8")]
        (some (Json.str "a=1"))
      = .formEncoded (some (Json.str "a=1")) ∧
    choosePayload "post" [] (some (Json.obj [("to", Json.str "x")]))
      = .jsonEncoded (Json.obj [("to", Json.str "x")]) ∧
    choosePayload "post" [] (some (Json.str "rawdata"))
      = .rawVerbatim (some (Json.str "rawdata")) := by
  refine ⟨?_, ?_, ?_, ?_⟩
  · exact (claim_content_negotiation "get" [] none).1 rfl
  · exact (claim_content_negotiation "post"
      [("content-type", "application/x-www-form-urlencoded; charset=utf-8")]
      (some (Json.str "a=1"))).2.1 (by decide) (by rfl)
  · exact ((claim_content_negotiation "post" []
      (some (Json.obj [("to", Json.str "x")]))).2.2 (by decide) (by rfl)).1 _ rfl
  · exact ((claim_content_negotiation "post" []
      (some (Json.str "rawdata"))).2.2 (by decide) (by rfl)).2.2
      (by simp) (by simp)

/-- Counterexample to C7 as stated: the claim looks the content-type
header up case-insensitively by key, but the source uses the exact
lower-case key; under the header key `"Content-Type"` the code JSON
encodes a structured body where the claim's reading form-encodes it. -/
theorem claim_content_negotiation_cex :
    choosePayload "post" [("Content-Type", "application/x-www-form-urlencoded")]
        (some (Json.obj [])) = .jsonEncoded (Json.obj []) ∧
    choosePayloadClaim "post" [("Content-Type", "application/x-www-form-urlencoded")]
        (some (Json.obj [])) = .formEncoded (some (Json.obj [])) ∧
    PayloadChoice.jsonEncoded (Json.obj []) ≠ .formEncoded (some (Json.obj [])) :=
  ⟨rfl, rfl, fun h => PayloadChoice.noConfusion h⟩

/-- C8 (amended): a resolved request with an empty url is classified
`skipped` and performs no network call (no HTTP request is issued); the
reason string `"No URL provided"` is supplied as a keyword argument at
the construction site, but `APIResult` declares no `reason` field, so
the returned result record carries no reason. -/
theorem claim_skipped_empty_url (net : NetOutcome) (api : ApiEntry)
    (h : api.url = "") :
    (call_api_sync_args net api).1.status = .skipped ∧
    (call_api_sync_args net api).1.reason = some "No URL provided" ∧
    (call_api_sync_args net api).2 = 0 ∧
    httpRequestIssued api = none ∧
    (call_api_sync net api).1
      = { name := api.name, status := .skipped, status_code := none,
          response := none, error := none } := by
  refine ⟨?_, ?_, ?_, ?_, ?_⟩ <;>
    simp [call_api_sync_args, call_api_sync, mkAPIResult, httpRequestIssued, h]

/-- Witness for C8 (amended) at a concrete empty-url endpoint. -/
theorem claim_skipped_empty_url_check :
    (call_api_sync_args (.response 200 "ok")
        { name := "a", url := "", method := "post", headers := [], body := none }).1.status
      = .skipped ∧
    (call_api_sync_args (.response 200 "ok")
        { name := "a", url := "", method := "post", headers := [], body := none }).1.reason
      = some "No URL provided" ∧
    (call_api_sync_args (.response 200 "ok")
        { name := "a", url := "", method := "post", headers := [], body := none }).2 = 0 ∧
    httpRequestIssued
        { name := "a", url := "", method := "post", headers := [], body := none } = none ∧
    (call_api_sync (.response 200 "ok")
        { name := "a", url := "", method := "post", headers := [], body := none }).1
      = { name := "a", status := .skipped, status_code := none,
          response := none, error := none } :=
  claim_skipped_empty_url (.response 200 "ok")
    { name := "a", url := "", method := "post", headers := [], body := none } rfl

/-- Counterexample to C8 as stated: the returned result cannot carry the
reason — constructing the result with the reason keyword yields exactly
the same `APIResult` as constructing it without one, and the dispatch
result for a concrete empty-url endpoint equals the reason-free record. -/
theorem claim_skipped_empty_url_cex :
    mkAPIResult { name := "a", status := .skipped, reason := some "No URL provided" }
      = mkAPIResult { name := "a", status := .skipped, reason := none } ∧
    (call_api_sync (.response 200 "ok")
        { name := "a", url := "", method := "post", headers := [], body := none }).1
      = mkAPIResult { name := "a", status := .skipped, reason := none } :=
  ⟨rfl, rfl⟩

/-- C10: at the public dispatch interface, a non-empty `phone` wins over
any `mobile` (which is then ignored); a supplied empty string behaves
exactly like an absent parameter; and when the chosen value is empty or
missing the handler answers the caller error (HTTP 400) whatever the
configuration or network behaviour — before any resolution or dispatch. -/
theorem claim_phone_parameter_precedence (behavior : ApiEntry → TaskBehavior)
    (cfg : List (String × ApiData)) (vars : List (String × String)) :
    (∀ p m, p ≠ "" → pyOrStr (some p) m = some p) ∧
    (∀ m, pyOrStr (some "") m = pyOrStr none m) ∧
    (∀ phone mobile,
      (pyOrStr phone mobile = none ∨ pyOrStr phone mobile = some "") →
      api_v1 behavior cfg vars phone mobile
        = .badRequest "Missing phone number. Use ?phone=NUMBER or ?mobile=NUMBER") ∧
    (∀ phone mobile p, pyOrStr phone mobile = some p → p ≠ "" →
      api_v1 behavior cfg vars phone mobile
        = .ok (dispatchReport behavior p (build_api_list vars cfg p))) := by
  refine ⟨?_, ?_, ?_, ?_⟩
  · intro p m hp
    simp [pyOrStr, hp]
  · intro m
    rfl
  · intro phone mobile h
    rcases h with h | h <;> simp [api_v1, h]
  · intro phone mobile p h hp
    simp [api_v1, h, hp]

/-- Witness for C10: with both parameters supplied the phone wins; with
an empty phone and no mobile the handler answers 400. -/
theorem claim_phone_parameter_precedence_check :
    api_v1 (fun _ => .net (.response 200 "ok")) [] [] (some "111") (some "222")
      = .ok (dispatchReport (fun _ => .net (.response 200 "ok")) "111"
          (build_api_list [] [] "111")) ∧
    api_v1 (fun _ => .net (.response 200 "ok")) [] [] (some "") none
      = .badRequest "Missing phone number. Use ?phone=NUMBER or ?mobile=NUMBER" := by
  constructor
  · exact (claim_phone_parameter_precedence (fun _ => .net (.response 200 "ok")) [] []).2.2.2
      (some "111") (some "222") "111"
      ((claim_phone_parameter_precedence (fun _ => .net (.response 200 "ok")) [] []).1
        "111" (some "222") (by decide))
      (by decide)
  · exact (claim_phone_parameter_precedence (fun _ => .net (.response 200 "ok")) [] []).2.2.1
      (some "") none (Or.inl rfl)

end SMS
